import Mathlib

/-!
Verification development for the wxwarn geofenced-alert pipeline
(src/src/main.rs).  The pipeline downloads a shapefile of alert
polygons, filters those containing a query coordinate, fetches each
matched alert from a remote API and prints it.  Here the pure core of
`print_alert` is embedded shallowly: network fetches become an oracle
function, `println!` output becomes a list of lines, and `panic!` /
`.unwrap()` aborts become an abort value carried next to the output
produced so far.
-/

namespace Wxwarn

/-- A JSON value, standing in for `serde_json::Value` (used for the
`geometry` field of an alert, which the program never inspects). -/
inductive Json where
  | null : Json
  | bool : Bool → Json
  | num : ℚ → Json
  | str : String → Json
  | arr : List Json → Json
  | obj : List (String × Json) → Json
deriving Repr

/-- `struct ContextClass` from src/src/main.rs. -/
structure ContextClass where
  version : String
  wx : String
  vocab : String
deriving Repr

/-- `enum ContextElement` (untagged union of a structured object or a
bare string) from src/src/main.rs. -/
inductive ContextElement where
  | contextClass : ContextClass → ContextElement
  | string : String → ContextElement
deriving Repr

/-- `struct Geocode` from src/src/main.rs. -/
structure Geocode where
  same : List String
  ugc : List String
deriving Repr

/-- `struct Parameters` from src/src/main.rs; `expired_references` is
the one optional field. -/
structure Parameters where
  awip_sidentifier : List String
  wm_oidentifier : List String
  nw_sheadline : List String
  blockchannel : List String
  vtec : List String
  event_ending_time : List String
  expired_references : Option (List String)
deriving Repr

/-- `struct Reference` from src/src/main.rs. -/
structure Reference where
  id : String
  identifier : String
  sender : String
  sent : String
deriving Repr

/-- `struct Properties` from src/src/main.rs. -/
structure Properties where
  id : String
  properties_type : String
  properties_id : String
  area_desc : String
  geocode : Geocode
  affected_zones : List String
  references : List Reference
  sent : String
  effective : String
  onset : String
  expires : String
  ends : String
  status : String
  message_type : String
  category : String
  severity : String
  certainty : String
  urgency : String
  event : String
  sender : String
  sender_name : String
  headline : String
  description : String
  instruction : String
  response : String
  parameters : Parameters
deriving Repr

/-- `struct Alert` from src/src/main.rs. -/
structure Alert where
  context : List ContextElement
  id : String
  alert_type : String
  geometry : Json
  properties : Properties
deriving Repr

/-- A dBASE attribute field value, mirroring
`shapefile::dbase::FieldValue` as far as the program distinguishes it:
the code pattern-matches on `Character(Some _)` versus any other
variant, so the non-character variants are represented by a sample of
the crate's constructors. -/
inductive FieldValue where
  | Character : Option String → FieldValue
  | Numeric : Option ℚ → FieldValue
  | Logical : Option Bool → FieldValue
deriving Repr, DecidableEq

/-- A shapefile attribute record: a finite map from field names to
field values, looked up with `get` (first binding wins, like
`dbase::Record::get`). -/
def DbaseRecord : Type := List (String × FieldValue)

instance : DecidableEq DbaseRecord := by
  unfold DbaseRecord
  infer_instance

/-- `polygon_record.get(name)` from src/src/main.rs. -/
def recordGet (rec : DbaseRecord) (name : String) : Option FieldValue :=
  match rec with
  | [] => none
  | (k, v) :: rest => if k = name then some v else recordGet rest name

/- ------------------------------------------------------------------ -/
/- Geometry: the containment predicate                                 -/
/- ------------------------------------------------------------------ -/

/-- A planar point.  The program's coordinates are `f64`; every finite
IEEE-754 double is a dyadic rational, so after scaling by a fixed power
of two the coordinates are exact integers, and every predicate below is
a sign test invariant under that scaling.  Coordinates are therefore
modelled as exact integers. -/
def Point : Type := ℤ × ℤ

instance : DecidableEq Point := by
  unfold Point
  infer_instance

/-- A ring: the closed list of vertices of one polygon ring (the edge
from the last vertex back to the first is implicit). -/
def Ring : Type := List Point

/-- One polygon with holes: an exterior ring and a list of interior
rings. -/
structure SimplePolygon where
  exterior : Ring
  interiors : List Ring

/-- A multi-polygon, the general boundary representation the matched
shapefile polygon is converted into (`geo::MultiPolygon`). -/
def MultiPolygon : Type := List SimplePolygon

/-- The consecutive edges of a ring, including the closing edge from
the last vertex back to the first. -/
def ringEdges (r : Ring) : List (Point × Point) :=
  match r with
  | [] => []
  | p :: ps => List.zip (p :: ps) (ps ++ [p])

/-- Twice the signed area of triangle a b c; zero iff collinear. -/
def orient (a b c : Point) : ℤ :=
  (b.1 - a.1) * (c.2 - a.2) - (b.2 - a.2) * (c.1 - a.1)

/-- Whether p lies on the closed segment from a to b. -/
def onSegment (a b p : Point) : Bool :=
  orient a b p = 0 ∧ min a.1 b.1 ≤ p.1 ∧ p.1 ≤ max a.1 b.1 ∧
    min a.2 b.2 ≤ p.2 ∧ p.2 ≤ max a.2 b.2

/-- Whether the edge from a to b crosses the horizontal ray extending
from p to the right (standard even-odd ray-casting rule, half-open in
y so a crossing through a shared vertex is counted once): the edge
straddles the ray's height and the ray's origin is strictly left of
the edge, expressed division-free through the sign of `orient`. -/
def rayCrosses (a b p : Point) : Bool :=
  (a.2 ≤ p.2 ∧ p.2 < b.2 ∧ orient a b p > 0) ∨
    (b.2 ≤ p.2 ∧ p.2 < a.2 ∧ orient a b p < 0)

/-- Position of a point relative to a closed ring. -/
inductive PointPos where
  | inside : PointPos
  | onBoundary : PointPos
  | outside : PointPos
deriving Repr, DecidableEq

/-- Modelled from the spec: the point-in-polygon position test used by
`geo_polygon.contains(...)` at src/src/main.rs line 212 lives in the
external geo crate, whose sources are not part of this repository;
following the spec it is "a standard point-in-polygon containment
predicate" with the polygon boundary itself treated as contained.
A point on some edge of the ring is on the boundary; otherwise it is
inside iff a rightward ray crosses an odd number of edges. -/
def ringPos (r : Ring) (p : Point) : PointPos :=
  if (ringEdges r).any (fun e => onSegment e.1 e.2 p) then
    PointPos.onBoundary
  else if ((ringEdges r).filter (fun e => rayCrosses e.1 e.2 p)).length % 2 = 1 then
    PointPos.inside
  else
    PointPos.outside

/-- Modelled from the spec: containment in one polygon with holes —
contained iff inside or on the exterior ring and in no hole interior
(hole boundaries count as contained, per the boundary convention). -/
def polyContains (poly : SimplePolygon) (p : Point) : Bool :=
  match ringPos poly.exterior p with
  | PointPos.outside => false
  | PointPos.onBoundary => true
  | PointPos.inside =>
      poly.interiors.all (fun h => ringPos h p ≠ PointPos.inside)

/-- Modelled from the spec: containment in a multi-polygon — contained
iff contained in some member polygon (`geo::MultiPolygon::contains`). -/
def mpContains (mp : MultiPolygon) (p : Point) : Bool :=
  mp.any (fun poly => polyContains poly p)

/- ------------------------------------------------------------------ -/
/- The print_alert loop                                                -/
/- ------------------------------------------------------------------ -/

/-- Result of `client.get(...).send()` followed by
`response.json::<Alert>()` for one alert-detail request: the send can
fail at the transport level (`Err(_)`), or succeed with a body that
either decodes to an `Alert` or fails to decode. -/
inductive FetchResult where
  | sendErr : FetchResult
  | success : Option Alert → FetchResult

/-- The reasons `print_alert` panics mid-loop: a missing attribute
field (`panic!("Field ... is not within the record")`), an attribute
field that is not a character field
(`panic!("Expected ... to be a character")`), or
`response.json::<Alert>().unwrap()` failing. -/
inductive AbortReason where
  | fieldMissing : String → AbortReason
  | expectedCharacter : String → AbortReason
  | alertDecodeFailed : AbortReason
deriving Repr, DecidableEq

/-- The separator line printed between results, src/src/main.rs
line 242. -/
def sepLine : String := "==============================="

/-- The error marker printed on a transport failure, src/src/main.rs
line 253. -/
def errorLine : String := "ERROR"

/-- The lines printed for one successfully decoded alert:
`println!("{}\n", ...)` emits the field followed by a blank line, for
headline, description, instruction and area description in that
order (src/src/main.rs lines 248-251). -/
def alertFieldLines (a : Alert) : List String :=
  [a.properties.headline, "", a.properties.description, "",
   a.properties.instruction, "", a.properties.area_desc, ""]

/-- The `match polygon_record.get(name) { Character(Some x) => x, ... }`
blocks of src/src/main.rs lines 216-233: yields the string value or
the panic the code raises. -/
def extractCharField (rec : DbaseRecord) (name : String) :
    Except AbortReason String :=
  match recordGet rec name with
  | some (FieldValue.Character (some x)) => Except.ok x
  | some _ => Except.error (AbortReason.expectedCharacter name)
  | none => Except.error (AbortReason.fieldMissing name)

/-- The `for (polygon, polygon_record) in polygons` loop of
`print_alert` (src/src/main.rs lines 208-258).  `fetch` is the oracle
for the per-match alert-detail HTTP request, keyed by the CAP_ID the
URL is templated with; `times` is the running match counter.  Returns
the lines printed and, if the loop panicked, the reason (output
printed before the panic is kept). -/
def runLoop (fetch : String → FetchResult) (lat lon : ℤ) :
    List (MultiPolygon × DbaseRecord) → ℕ → List String × Option AbortReason
  | [], _ => ([], none)
  | (polygon, rec) :: rest, times =>
    if mpContains polygon (lon, lat) then
      let times1 := times + 1
      match extractCharField rec "CAP_ID" with
      | Except.error e => ([], some e)
      | Except.ok capId =>
        match extractCharField rec "PROD_TYPE" with
        | Except.error e => ([], some e)
        | Except.ok _ =>
          match extractCharField rec "ISSUANCE" with
          | Except.error e => ([], some e)
          | Except.ok _ =>
            let resp := fetch capId
            let sepLines := if times1 ≥ 1 then [sepLine] else []
            match resp with
            | FetchResult.sendErr =>
                let r := runLoop fetch lat lon rest times1
                (sepLines ++ [errorLine] ++ r.1, r.2)
            | FetchResult.success none =>
                (sepLines, some AbortReason.alertDecodeFailed)
            | FetchResult.success (some alert) =>
                let r := runLoop fetch lat lon rest times1
                (sepLines ++ alertFieldLines alert ++ r.1, r.2)
    else
      runLoop fetch lat lon rest times

/-- `print_alert` after the shapefile has been decoded: the loop over
all (polygon, record) pairs, with the match counter starting at 0. -/
def printAlert (fetch : String → FetchResult) (lat lon : ℤ)
    (polygons : List (MultiPolygon × DbaseRecord)) :
    List String × Option AbortReason :=
  runLoop fetch lat lon polygons 0

/-- The Containment Matcher as a pure filter: the subsequence of
(polygon, record) pairs whose polygon contains the query point, taken
with x = longitude and y = latitude (src/src/main.rs lines 210-212). -/
def matchedPairs (polygons : List (MultiPolygon × DbaseRecord))
    (lat lon : ℤ) : List (MultiPolygon × DbaseRecord) :=
  polygons.filter (fun pr => mpContains pr.1 (lon, lat))

/- ------------------------------------------------------------------ -/
/- Derived notions used to state the properties                        -/
/- ------------------------------------------------------------------ -/

/-- Sequencing two partial runs: if the first aborted, its abort wins
and the second contributes nothing; otherwise outputs concatenate. -/
def seqRun (r s : List String × Option AbortReason) :
    List String × Option AbortReason :=
  match r.2 with
  | some e => (r.1, some e)
  | none => (r.1 ++ s.1, s.2)

/-- The result block a non-aborting run prints for one matched record:
the error marker on a transport failure, the four alert fields on a
success (the two abort cases yield a dummy value, unreachable in a
non-aborting run). -/
def blockFor (fetch : String → FetchResult) (rec : DbaseRecord) :
    List String :=
  match extractCharField rec "CAP_ID" with
  | Except.error _ => []
  | Except.ok capId =>
    match fetch capId with
    | FetchResult.sendErr => [errorLine]
    | FetchResult.success none => []
    | FetchResult.success (some a) => alertFieldLines a

/-- Whether the point lies on the boundary of the multi-polygon: on
some polygon's exterior ring, or inside an exterior ring and on one of
its hole rings while strictly inside no hole. -/
def onMpBoundary (mp : MultiPolygon) (p : Point) : Bool :=
  mp.any (fun poly =>
    ringPos poly.exterior p == PointPos.onBoundary ||
      (ringPos poly.exterior p == PointPos.inside &&
        (poly.interiors.any (fun h => ringPos h p == PointPos.onBoundary) &&
          poly.interiors.all (fun h => ringPos h p != PointPos.inside))))

/- ------------------------------------------------------------------ -/
/- Concrete fixtures used by witnesses and counterexamples             -/
/- ------------------------------------------------------------------ -/

/-- A square alert zone with corners (0,0) and (4,4). -/
def squareRing : Ring := [((0:ℤ), (0:ℤ)), (4, 0), (4, 4), (0, 4)]

/-- The square as a multi-polygon. -/
def sq : MultiPolygon := [⟨squareRing, []⟩]

/-- An empty parameters block. -/
def dummyParams : Parameters := ⟨[], [], [], [], [], [], none⟩

/-- An empty geocode block. -/
def dummyGeocode : Geocode := ⟨[], []⟩

/-- Properties whose four displayed fields are H, D, I, A. -/
def dummyProps : Properties :=
  ⟨"", "", "", "A", dummyGeocode, [], [], "", "", "", "", "", "", "", "", "",
   "", "", "", "", "", "H", "D", "I", "", dummyParams⟩

/-- A concrete alert with displayed fields H, D, I, A. -/
def alertA : Alert := ⟨[], "", "", Json.null, dummyProps⟩

/-- A record with all three required character fields. -/
def recGood : DbaseRecord :=
  [("CAP_ID", FieldValue.Character (some "K1")),
   ("PROD_TYPE", FieldValue.Character (some "TOW")),
   ("ISSUANCE", FieldValue.Character (some "T1"))]

/-- Like recGood but with a different identifier. -/
def recGood2 : DbaseRecord :=
  [("CAP_ID", FieldValue.Character (some "K2")),
   ("PROD_TYPE", FieldValue.Character (some "TOW")),
   ("ISSUANCE", FieldValue.Character (some "T1"))]

/-- A record lacking the CAP_ID field. -/
def recNoCap : DbaseRecord :=
  [("PROD_TYPE", FieldValue.Character (some "TOW")),
   ("ISSUANCE", FieldValue.Character (some "T1"))]

/-- A record whose PROD_TYPE field is numeric, not character. -/
def recBadProd : DbaseRecord :=
  [("CAP_ID", FieldValue.Character (some "K1")),
   ("PROD_TYPE", FieldValue.Numeric (some 7)),
   ("ISSUANCE", FieldValue.Character (some "T1"))]

/-- A record lacking the ISSUANCE field. -/
def recNoIss : DbaseRecord :=
  [("CAP_ID", FieldValue.Character (some "K1")),
   ("PROD_TYPE", FieldValue.Character (some "TOW"))]

/-- A fetch oracle for which every alert request succeeds and
decodes. -/
def fetchOk : String → FetchResult :=
  fun _ => FetchResult.success (some alertA)

/-- A fetch oracle for which every alert request fails at the
transport level. -/
def fetchErr : String → FetchResult := fun _ => FetchResult.sendErr

/-- A fetch oracle for which every alert request succeeds at the
transport level but the body fails to decode. -/
def fetchBad : String → FetchResult := fun _ => FetchResult.success none

/-- A fetch oracle failing at the transport level for identifier K1
only. -/
def fetchMixed : String → FetchResult :=
  fun s => if s = "K1" then FetchResult.sendErr
           else FetchResult.success (some alertA)

/- ------------------------------------------------------------------ -/
/- Unfolding lemmas for the loop                                       -/
/- ------------------------------------------------------------------ -/

theorem runLoop_nil (fetch : String → FetchResult) (lat lon : ℤ) (t : ℕ) :
    runLoop fetch lat lon [] t = ([], none) := rfl

theorem runLoop_cons_nomatch {fetch : String → FetchResult} {lat lon : ℤ}
    {poly : MultiPolygon} {rec : DbaseRecord}
    {rest : List (MultiPolygon × DbaseRecord)} {t : ℕ}
    (h : mpContains poly (lon, lat) = false) :
    runLoop fetch lat lon ((poly, rec) :: rest) t =
      runLoop fetch lat lon rest t := by
  simp [runLoop, h]

theorem runLoop_cons_capFail {fetch : String → FetchResult} {lat lon : ℤ}
    {poly : MultiPolygon} {rec : DbaseRecord}
    {rest : List (MultiPolygon × DbaseRecord)} {t : ℕ} {e : AbortReason}
    (h : mpContains poly (lon, lat) = true)
    (hc : extractCharField rec "CAP_ID" = Except.error e) :
    runLoop fetch lat lon ((poly, rec) :: rest) t = ([], some e) := by
  simp [runLoop, h, hc]

theorem runLoop_cons_prodFail {fetch : String → FetchResult} {lat lon : ℤ}
    {poly : MultiPolygon} {rec : DbaseRecord}
    {rest : List (MultiPolygon × DbaseRecord)} {t : ℕ} {c : String}
    {e : AbortReason}
    (h : mpContains poly (lon, lat) = true)
    (hc : extractCharField rec "CAP_ID" = Except.ok c)
    (hp : extractCharField rec "PROD_TYPE" = Except.error e) :
    runLoop fetch lat lon ((poly, rec) :: rest) t = ([], some e) := by
  simp [runLoop, h, hc, hp]

theorem runLoop_cons_issFail {fetch : String → FetchResult} {lat lon : ℤ}
    {poly : MultiPolygon} {rec : DbaseRecord}
    {rest : List (MultiPolygon × DbaseRecord)} {t : ℕ} {c pv : String}
    {e : AbortReason}
    (h : mpContains poly (lon, lat) = true)
    (hc : extractCharField rec "CAP_ID" = Except.ok c)
    (hp : extractCharField rec "PROD_TYPE" = Except.ok pv)
    (hi : extractCharField rec "ISSUANCE" = Except.error e) :
    runLoop fetch lat lon ((poly, rec) :: rest) t = ([], some e) := by
  simp [runLoop, h, hc, hp, hi]

theorem runLoop_cons_sendErr {fetch : String → FetchResult} {lat lon : ℤ}
    {poly : MultiPolygon} {rec : DbaseRecord}
    {rest : List (MultiPolygon × DbaseRecord)} {t : ℕ} {c pv iv : String}
    (h : mpContains poly (lon, lat) = true)
    (hc : extractCharField rec "CAP_ID" = Except.ok c)
    (hp : extractCharField rec "PROD_TYPE" = Except.ok pv)
    (hi : extractCharField rec "ISSUANCE" = Except.ok iv)
    (hf : fetch c = FetchResult.sendErr) :
    runLoop fetch lat lon ((poly, rec) :: rest) t =
      (sepLine :: errorLine :: (runLoop fetch lat lon rest (t + 1)).1,
        (runLoop fetch lat lon rest (t + 1)).2) := by
  simp [runLoop, h, hc, hp, hi, hf, Nat.le_add_left]

theorem runLoop_cons_decodeFail {fetch : String → FetchResult} {lat lon : ℤ}
    {poly : MultiPolygon} {rec : DbaseRecord}
    {rest : List (MultiPolygon × DbaseRecord)} {t : ℕ} {c pv iv : String}
    (h : mpContains poly (lon, lat) = true)
    (hc : extractCharField rec "CAP_ID" = Except.ok c)
    (hp : extractCharField rec "PROD_TYPE" = Except.ok pv)
    (hi : extractCharField rec "ISSUANCE" = Except.ok iv)
    (hf : fetch c = FetchResult.success none) :
    runLoop fetch lat lon ((poly, rec) :: rest) t =
      ([sepLine], some AbortReason.alertDecodeFailed) := by
  simp [runLoop, h, hc, hp, hi, hf, Nat.le_add_left]

theorem runLoop_cons_ok {fetch : String → FetchResult} {lat lon : ℤ}
    {poly : MultiPolygon} {rec : DbaseRecord}
    {rest : List (MultiPolygon × DbaseRecord)} {t : ℕ} {c pv iv : String}
    {a : Alert}
    (h : mpContains poly (lon, lat) = true)
    (hc : extractCharField rec "CAP_ID" = Except.ok c)
    (hp : extractCharField rec "PROD_TYPE" = Except.ok pv)
    (hi : extractCharField rec "ISSUANCE" = Except.ok iv)
    (hf : fetch c = FetchResult.success (some a)) :
    runLoop fetch lat lon ((poly, rec) :: rest) t =
      (sepLine :: (alertFieldLines a ++ (runLoop fetch lat lon rest (t + 1)).1),
        (runLoop fetch lat lon rest (t + 1)).2) := by
  simp [runLoop, h, hc, hp, hi, hf, Nat.le_add_left]

theorem runLoop_times_eq (fetch : String → FetchResult) (lat lon : ℤ) :
    ∀ (polys : List (MultiPolygon × DbaseRecord)) (t s : ℕ),
      runLoop fetch lat lon polys t = runLoop fetch lat lon polys s := by
  intro polys
  induction polys with
  | nil => intro t s; rfl
  | cons pr rest ih =>
    intro t s
    obtain ⟨poly, rec⟩ := pr
    cases h : mpContains poly (lon, lat) with
    | false =>
      rw [runLoop_cons_nomatch h, runLoop_cons_nomatch h, ih]
    | true =>
      cases hc : extractCharField rec "CAP_ID" with
      | error e =>
        rw [runLoop_cons_capFail h hc, runLoop_cons_capFail h hc]
      | ok c =>
        cases hp : extractCharField rec "PROD_TYPE" with
        | error e =>
          rw [runLoop_cons_prodFail h hc hp, runLoop_cons_prodFail h hc hp]
        | ok pv =>
          cases hi : extractCharField rec "ISSUANCE" with
          | error e =>
            rw [runLoop_cons_issFail h hc hp hi,
              runLoop_cons_issFail h hc hp hi]
          | ok iv =>
            cases hf : fetch c with
            | sendErr =>
              rw [runLoop_cons_sendErr h hc hp hi hf,
                runLoop_cons_sendErr h hc hp hi hf, ih]
            | success o =>
              cases o with
              | none =>
                rw [runLoop_cons_decodeFail h hc hp hi hf,
                  runLoop_cons_decodeFail h hc hp hi hf]
              | some a =>
                rw [runLoop_cons_ok h hc hp hi hf,
                  runLoop_cons_ok h hc hp hi hf, ih]

theorem runLoop_append {fetch : String → FetchResult} {lat lon : ℤ} :
    ∀ (xs ys : List (MultiPolygon × DbaseRecord)) (t : ℕ),
      runLoop fetch lat lon (xs ++ ys) t =
        seqRun (runLoop fetch lat lon xs t) (runLoop fetch lat lon ys 0) := by
  intro xs
  induction xs with
  | nil =>
    intro ys t
    rw [List.nil_append, runLoop_times_eq fetch lat lon ys t 0]
    simp [seqRun, runLoop]
  | cons pr rest ih =>
    intro ys t
    obtain ⟨poly, rec⟩ := pr
    cases h : mpContains poly (lon, lat) with
    | false =>
      rw [List.cons_append, runLoop_cons_nomatch h, runLoop_cons_nomatch h, ih]
    | true =>
      cases hc : extractCharField rec "CAP_ID" with
      | error e =>
        rw [List.cons_append, runLoop_cons_capFail h hc,
          runLoop_cons_capFail h hc]
        simp [seqRun]
      | ok c =>
        cases hp : extractCharField rec "PROD_TYPE" with
        | error e =>
          rw [List.cons_append, runLoop_cons_prodFail h hc hp,
            runLoop_cons_prodFail h hc hp]
          simp [seqRun]
        | ok pv =>
          cases hi : extractCharField rec "ISSUANCE" with
          | error e =>
            rw [List.cons_append, runLoop_cons_issFail h hc hp hi,
              runLoop_cons_issFail h hc hp hi]
            simp [seqRun]
          | ok iv =>
            cases hf : fetch c with
            | sendErr =>
              rw [List.cons_append, runLoop_cons_sendErr h hc hp hi hf,
                runLoop_cons_sendErr h hc hp hi hf, ih]
              cases hr : (runLoop fetch lat lon rest (t + 1)).2 with
              | none => simp [seqRun, hr]
              | some e => simp [seqRun, hr]
            | success o =>
              cases o with
              | none =>
                rw [List.cons_append, runLoop_cons_decodeFail h hc hp hi hf,
                  runLoop_cons_decodeFail h hc hp hi hf]
                simp [seqRun]
              | some a =>
                rw [List.cons_append, runLoop_cons_ok h hc hp hi hf,
                  runLoop_cons_ok h hc hp hi hf, ih]
                cases hr : (runLoop fetch lat lon rest (t + 1)).2 with
                | none => simp [seqRun, hr]
                | some e => simp [seqRun, hr]

theorem matchedPairs_cons {poly : MultiPolygon} {rec : DbaseRecord}
    {rest : List (MultiPolygon × DbaseRecord)} {lat lon : ℤ} :
    matchedPairs ((poly, rec) :: rest) lat lon =
      if mpContains poly (lon, lat) then
        (poly, rec) :: matchedPairs rest lat lon
      else matchedPairs rest lat lon := by
  simp [matchedPairs, List.filter_cons]

theorem runLoop_flatten {fetch : String → FetchResult} {lat lon : ℤ} :
    ∀ (polys : List (MultiPolygon × DbaseRecord)) (t : ℕ),
      (runLoop fetch lat lon polys t).2 = none →
      (runLoop fetch lat lon polys t).1 =
        ((matchedPairs polys lat lon).map
          (fun pr => sepLine :: blockFor fetch pr.2)).flatten := by
  intro polys
  induction polys with
  | nil => intro t _; simp [runLoop, matchedPairs]
  | cons pr rest ih =>
    intro t hnone
    obtain ⟨poly, rec⟩ := pr
    cases h : mpContains poly (lon, lat) with
    | false =>
      rw [runLoop_cons_nomatch h] at hnone ⊢
      rw [matchedPairs_cons, if_neg (by simp [h]), ih t hnone]
    | true =>
      cases hc : extractCharField rec "CAP_ID" with
      | error e =>
        rw [runLoop_cons_capFail h hc] at hnone
        simp at hnone
      | ok c =>
        cases hp : extractCharField rec "PROD_TYPE" with
        | error e =>
          rw [runLoop_cons_prodFail h hc hp] at hnone
          simp at hnone
        | ok pv =>
          cases hi : extractCharField rec "ISSUANCE" with
          | error e =>
            rw [runLoop_cons_issFail h hc hp hi] at hnone
            simp at hnone
          | ok iv =>
            cases hf : fetch c with
            | sendErr =>
              rw [runLoop_cons_sendErr h hc hp hi hf] at hnone ⊢
              rw [matchedPairs_cons, if_pos (by simp [h])]
              simp only [List.map_cons, List.flatten_cons]
              rw [ih (t + 1) hnone]
              simp [blockFor, hc, hf]
            | success o =>
              cases o with
              | none =>
                rw [runLoop_cons_decodeFail h hc hp hi hf] at hnone
                simp at hnone
              | some a =>
                rw [runLoop_cons_ok h hc hp hi hf] at hnone ⊢
                rw [matchedPairs_cons, if_pos (by simp [h])]
                simp only [List.map_cons, List.flatten_cons]
                rw [ih (t + 1) hnone]
                simp [blockFor, hc, hf]

theorem runLoop_head_sep {fetch : String → FetchResult} {lat lon : ℤ} :
    ∀ (polys : List (MultiPolygon × DbaseRecord)) (t : ℕ),
      (runLoop fetch lat lon polys t).1 ≠ [] →
      (runLoop fetch lat lon polys t).1.head? = some sepLine := by
  intro polys
  induction polys with
  | nil => intro t hne; simp [runLoop] at hne
  | cons pr rest ih =>
    intro t hne
    obtain ⟨poly, rec⟩ := pr
    cases h : mpContains poly (lon, lat) with
    | false =>
      rw [runLoop_cons_nomatch h] at hne ⊢
      exact ih t hne
    | true =>
      cases hc : extractCharField rec "CAP_ID" with
      | error e => rw [runLoop_cons_capFail h hc] at hne; simp at hne
      | ok c =>
        cases hp : extractCharField rec "PROD_TYPE" with
        | error e => rw [runLoop_cons_prodFail h hc hp] at hne; simp at hne
        | ok pv =>
          cases hi : extractCharField rec "ISSUANCE" with
          | error e => rw [runLoop_cons_issFail h hc hp hi] at hne; simp at hne
          | ok iv =>
            cases hf : fetch c with
            | sendErr => rw [runLoop_cons_sendErr h hc hp hi hf]; rfl
            | success o =>
              cases o with
              | none => rw [runLoop_cons_decodeFail h hc hp hi hf]; rfl
              | some a => rw [runLoop_cons_ok h hc hp hi hf]; rfl

/- ------------------------------------------------------------------ -/
/- The claims                                                          -/
/- ------------------------------------------------------------------ -/

/-- Claim C1 is false on the code: it states that a per-match alert
response whose transport succeeds but whose body fails to decode as an
`Alert` yields the same observable outcome as a transport failure
(error marker, loop continues).  At a concrete single-match run the
decode failure prints the separator and then aborts the whole run with
the `.unwrap()` panic of src/src/main.rs line 247 — a different
outcome from the transport failure, which prints the separator and the
error marker and finishes normally. -/
theorem c1_counterexample :
    printAlert fetchBad 1 1 [(sq, recGood)] =
        ([sepLine], some AbortReason.alertDecodeFailed) ∧
      printAlert fetchBad 1 1 [(sq, recGood)] ≠
        printAlert fetchErr 1 1 [(sq, recGood)] := by
  decide

/-- Claim C1 as amended: for a matched record whose alert request
succeeds at the transport level but whose body fails to decode, the
run prints the separator for that match and then aborts the entire run
(the `.unwrap()` panic): no error marker is printed and no later match
is processed, unlike a transport failure. -/
theorem c1_amended :
    ∀ (fetch : String → FetchResult) (lat lon : ℤ)
      (pre : List (MultiPolygon × DbaseRecord)) (poly : MultiPolygon)
      (rec : DbaseRecord) (rest : List (MultiPolygon × DbaseRecord))
      (c pv iv : String),
      (runLoop fetch lat lon pre 0).2 = none →
      mpContains poly (lon, lat) = true →
      extractCharField rec "CAP_ID" = Except.ok c →
      extractCharField rec "PROD_TYPE" = Except.ok pv →
      extractCharField rec "ISSUANCE" = Except.ok iv →
      fetch c = FetchResult.success none →
      printAlert fetch lat lon (pre ++ (poly, rec) :: rest) =
        ((runLoop fetch lat lon pre 0).1 ++ [sepLine],
          some AbortReason.alertDecodeFailed) := by
  intro fetch lat lon pre poly rec rest c pv iv hpre h hc hp hi hf
  unfold printAlert
  rw [runLoop_append, runLoop_cons_decodeFail h hc hp hi hf]
  simp [seqRun, hpre]

theorem c1_amended_witness :
    printAlert fetchBad 1 1 ([] ++ (sq, recGood) :: [(sq, recGood2)]) =
      ((runLoop fetchBad 1 1 [] 0).1 ++ [sepLine],
        some AbortReason.alertDecodeFailed) :=
  c1_amended fetchBad 1 1 [] sq recGood [(sq, recGood2)] "K1" "TOW" "T1"
    rfl (by decide) rfl rfl rfl rfl

/-- Claim C2: the Containment Matcher keeps a (polygon, record) pair
exactly when the containment predicate holds for the polygon at the
point taken as (x = longitude, y = latitude), and the predicate
(modelled from the spec, since it lives in the external geo crate)
includes boundary points: a point on a polygon's exterior ring is
contained, as is a point on a hole ring that is inside the exterior
and strictly inside no hole. -/
theorem c2_matcher :
    (∀ (polys : List (MultiPolygon × DbaseRecord)) (lat lon : ℤ)
        (pr : MultiPolygon × DbaseRecord),
        pr ∈ matchedPairs polys lat lon ↔
          pr ∈ polys ∧ mpContains pr.1 (lon, lat) = true) ∧
      (∀ (mp : MultiPolygon) (p : Point),
        onMpBoundary mp p = true → mpContains mp p = true) := by
  constructor
  · intro polys lat lon pr
    simp [matchedPairs, List.mem_filter]
  · intro mp p hb
    simp only [onMpBoundary, List.any_eq_true] at hb
    obtain ⟨poly, hmem, hcond⟩ := hb
    simp only [mpContains, List.any_eq_true]
    refine ⟨poly, hmem, ?_⟩
    cases hext : ringPos poly.exterior p with
    | onBoundary => simp [polyContains, hext]
    | outside => simp [hext] at hcond
    | inside =>
      simp only [hext] at hcond
      simp only [polyContains, hext]
      simp only [Bool.or_eq_true, Bool.and_eq_true, beq_iff_eq] at hcond
      rcases hcond with hcond | ⟨_, _, hall⟩
      · exact absurd hcond (by simp)
      · simp only [List.all_eq_true, bne_iff_ne] at hall ⊢
        intro r hr
        simpa using hall r hr

theorem c2_matcher_witness :
    onMpBoundary sq ((2 : ℤ), (0 : ℤ)) = true ∧
      mpContains sq ((2 : ℤ), (0 : ℤ)) = true :=
  ⟨by decide, c2_matcher.2 sq ((2 : ℤ), (0 : ℤ)) (by decide)⟩

/-- Claim C3 is false on the code in its second half: the match
counter is incremented before the `times >= 1` check, so the check is
already true for the first match and a separator IS printed before the
first match's result.  Concretely, a run with one match produces
output whose first line is the separator. -/
theorem c3_counterexample :
    (matchedPairs [(sq, recGood)] 1 1).length = 1 ∧
      (printAlert fetchOk 1 1 [(sq, recGood)]).1.head? = some sepLine := by
  decide

/-- Claim C3 as amended: the running match counter is used only to
decide whether to print a separator, and that decision always prints —
the loop's result is entirely independent of the counter's value, and
whenever the run prints anything at all its first line is the
separator, so a separator precedes even the first match's result. -/
theorem c3_amended :
    (∀ (fetch : String → FetchResult) (lat lon : ℤ)
        (polys : List (MultiPolygon × DbaseRecord)) (t s : ℕ),
        runLoop fetch lat lon polys t = runLoop fetch lat lon polys s) ∧
      (∀ (fetch : String → FetchResult) (lat lon : ℤ)
        (polys : List (MultiPolygon × DbaseRecord)),
        (printAlert fetch lat lon polys).1 ≠ [] →
        (printAlert fetch lat lon polys).1.head? = some sepLine) := by
  constructor
  · intro fetch lat lon polys t s
    exact runLoop_times_eq fetch lat lon polys t s
  · intro fetch lat lon polys hne
    exact runLoop_head_sep polys 0 hne

theorem c3_amended_witness :
    (printAlert fetchOk 1 1 [(sq, recGood)]).1.head? = some sepLine :=
  c3_amended.2 fetchOk 1 1 [(sq, recGood)] (by decide)

/-- Claim C4: in a run that completes without aborting, the output is
exactly the concatenation, in match order, of one separator line
immediately followed by that match's result block (the four alert
fields on success, the error marker on a transport failure) for every
matched pair — including a separator before the first block — with
nothing after the last block; for N matches that is exactly N
separators interleaved with the N blocks. -/
theorem c4_presenter_shape :
    ∀ (fetch : String → FetchResult) (lat lon : ℤ)
      (polys : List (MultiPolygon × DbaseRecord)),
      (printAlert fetch lat lon polys).2 = none →
      (printAlert fetch lat lon polys).1 =
        ((matchedPairs polys lat lon).map
          (fun pr => sepLine :: blockFor fetch pr.2)).flatten := by
  intro fetch lat lon polys hnone
  exact runLoop_flatten polys 0 hnone

theorem c4_presenter_shape_witness :
    (printAlert fetchMixed 1 1 [(sq, recGood), (sq, recGood2)]).2 = none ∧
      (printAlert fetchMixed 1 1 [(sq, recGood), (sq, recGood2)]).1 =
        ((matchedPairs [(sq, recGood), (sq, recGood2)] 1 1).map
          (fun pr => sepLine :: blockFor fetchMixed pr.2)).flatten :=
  ⟨by decide,
    c4_presenter_shape fetchMixed 1 1 [(sq, recGood), (sq, recGood2)]
      (by decide)⟩

/-- Claim C5 is false on the code in one respect: a matched record
with a missing (or non-character) CAP_ID field does abort the whole
run and is never a per-match skip, but when an earlier match has
already printed its result the abort does NOT happen "before producing
any output" — at a concrete run with a successful match before the
bad record, the run aborts with output already emitted. -/
theorem c5_counterexample :
    (printAlert fetchOk 1 1 [(sq, recGood), (sq, recNoCap)]).2 =
        some (AbortReason.fieldMissing "CAP_ID") ∧
      (printAlert fetchOk 1 1 [(sq, recGood), (sq, recNoCap)]).1 ≠ [] := by
  decide

/-- Claim C5 as amended: if a matched record's CAP_ID field is missing
or not of character type, the run aborts fatally at that record before
producing any output for that record (not even a separator or error
marker), and no later match is processed — the failure is never a
per-match skip; output of earlier matches has already been emitted and
is kept. -/
theorem c5_amended :
    ∀ (fetch : String → FetchResult) (lat lon : ℤ)
      (pre : List (MultiPolygon × DbaseRecord)) (poly : MultiPolygon)
      (rec : DbaseRecord) (rest : List (MultiPolygon × DbaseRecord))
      (e : AbortReason),
      mpContains poly (lon, lat) = true →
      extractCharField rec "CAP_ID" = Except.error e →
      (runLoop fetch lat lon pre 0).2 = none →
      printAlert fetch lat lon (pre ++ (poly, rec) :: rest) =
        ((runLoop fetch lat lon pre 0).1, some e) := by
  intro fetch lat lon pre poly rec rest e h hc hpre
  unfold printAlert
  rw [runLoop_append, runLoop_cons_capFail h hc]
  simp [seqRun, hpre]

theorem c5_amended_witness :
    printAlert fetchOk 1 1
        ([(sq, recGood)] ++ (sq, recNoCap) :: [(sq, recGood2)]) =
      ((runLoop fetchOk 1 1 [(sq, recGood)] 0).1,
        some (AbortReason.fieldMissing "CAP_ID")) :=
  c5_amended fetchOk 1 1 [(sq, recGood)] sq recNoCap [(sq, recGood2)]
    (AbortReason.fieldMissing "CAP_ID") (by decide) rfl rfl

/-- Claim C6: for a match whose alert request succeeds and decodes,
the emitted block is the alert's headline, description, instruction
and area description in exactly that order, each followed by a blank
line; and a run whose single match resolves successfully prints
exactly one separator line followed by those four fields, with no
trailing separator. -/
theorem c6_success_block :
    (∀ (fetch : String → FetchResult) (lat lon : ℤ) (poly : MultiPolygon)
        (rec : DbaseRecord) (rest : List (MultiPolygon × DbaseRecord))
        (t : ℕ) (c pv iv : String) (a : Alert),
        mpContains poly (lon, lat) = true →
        extractCharField rec "CAP_ID" = Except.ok c →
        extractCharField rec "PROD_TYPE" = Except.ok pv →
        extractCharField rec "ISSUANCE" = Except.ok iv →
        fetch c = FetchResult.success (some a) →
        runLoop fetch lat lon ((poly, rec) :: rest) t =
          (sepLine :: a.properties.headline :: "" ::
              a.properties.description :: "" :: a.properties.instruction ::
              "" :: a.properties.area_desc :: "" ::
              (runLoop fetch lat lon rest (t + 1)).1,
            (runLoop fetch lat lon rest (t + 1)).2)) ∧
      (∀ (fetch : String → FetchResult) (lat lon : ℤ) (poly : MultiPolygon)
        (rec : DbaseRecord) (c pv iv : String) (a : Alert),
        mpContains poly (lon, lat) = true →
        extractCharField rec "CAP_ID" = Except.ok c →
        extractCharField rec "PROD_TYPE" = Except.ok pv →
        extractCharField rec "ISSUANCE" = Except.ok iv →
        fetch c = FetchResult.success (some a) →
        printAlert fetch lat lon [(poly, rec)] =
          ([sepLine, a.properties.headline, "", a.properties.description,
            "", a.properties.instruction, "", a.properties.area_desc, ""],
            none)) := by
  constructor
  · intro fetch lat lon poly rec rest t c pv iv a h hc hp hi hf
    rw [runLoop_cons_ok h hc hp hi hf]
    simp [alertFieldLines]
  · intro fetch lat lon poly rec c pv iv a h hc hp hi hf
    unfold printAlert
    rw [runLoop_cons_ok h hc hp hi hf]
    simp [alertFieldLines, runLoop]

theorem c6_success_block_witness :
    printAlert fetchOk 1 1 [(sq, recGood)] =
      ([sepLine, alertA.properties.headline, "",
        alertA.properties.description, "", alertA.properties.instruction,
        "", alertA.properties.area_desc, ""], none) :=
  c6_success_block.2 fetchOk 1 1 sq recGood "K1" "TOW" "T1" alertA
    (by decide) rfl rfl rfl rfl

/-- Claim C7: if the alert request for one match fails at the
transport level while the next match's request succeeds and decodes,
the run emits the separator and the error marker for the failing
match, then the separator and the normal result block for the next
match, and goes on with the remaining matches — a per-match transport
failure never aborts the loop. -/
theorem c7_transport_recovery :
    ∀ (fetch : String → FetchResult) (lat lon : ℤ)
      (pre : List (MultiPolygon × DbaseRecord)) (p1 : MultiPolygon)
      (r1 : DbaseRecord) (p2 : MultiPolygon) (r2 : DbaseRecord)
      (rest : List (MultiPolygon × DbaseRecord))
      (c1 pv1 iv1 c2 pv2 iv2 : String) (a : Alert),
      (runLoop fetch lat lon pre 0).2 = none →
      mpContains p1 (lon, lat) = true →
      extractCharField r1 "CAP_ID" = Except.ok c1 →
      extractCharField r1 "PROD_TYPE" = Except.ok pv1 →
      extractCharField r1 "ISSUANCE" = Except.ok iv1 →
      fetch c1 = FetchResult.sendErr →
      mpContains p2 (lon, lat) = true →
      extractCharField r2 "CAP_ID" = Except.ok c2 →
      extractCharField r2 "PROD_TYPE" = Except.ok pv2 →
      extractCharField r2 "ISSUANCE" = Except.ok iv2 →
      fetch c2 = FetchResult.success (some a) →
      printAlert fetch lat lon (pre ++ (p1, r1) :: (p2, r2) :: rest) =
        ((runLoop fetch lat lon pre 0).1 ++
            sepLine :: errorLine :: sepLine ::
              (alertFieldLines a ++ (runLoop fetch lat lon rest 0).1),
          (runLoop fetch lat lon rest 0).2) := by
  intro fetch lat lon pre p1 r1 p2 r2 rest c1 pv1 iv1 c2 pv2 iv2 a
    hpre h1 hc1 hp1 hi1 hf1 h2 hc2 hp2 hi2 hf2
  unfold printAlert
  rw [runLoop_append, runLoop_cons_sendErr h1 hc1 hp1 hi1 hf1,
    runLoop_cons_ok h2 hc2 hp2 hi2 hf2,
    runLoop_times_eq fetch lat lon rest (0 + 1 + 1) 0]
  simp [seqRun, hpre]

theorem c7_transport_recovery_witness :
    printAlert fetchMixed 1 1
        ([] ++ (sq, recGood) :: (sq, recGood2) :: []) =
      ((runLoop fetchMixed 1 1 [] 0).1 ++
          sepLine :: errorLine :: sepLine ::
            (alertFieldLines alertA ++ (runLoop fetchMixed 1 1 [] 0).1),
        (runLoop fetchMixed 1 1 [] 0).2) :=
  c7_transport_recovery fetchMixed 1 1 [] sq recGood sq recGood2 []
    "K1" "TOW" "T1" "K2" "TOW" "T1" alertA rfl (by decide) rfl rfl rfl rfl
    (by decide) rfl rfl rfl rfl

/-- Claim C8: for a query coordinate contained in none of the decoded
polygons, the run produces no output at all — no separator, no result
block, no error line — and no abort. -/
theorem c8_no_output :
    ∀ (fetch : String → FetchResult) (lat lon : ℤ)
      (polys : List (MultiPolygon × DbaseRecord)),
      (∀ pr ∈ polys, mpContains pr.1 (lon, lat) = false) →
      printAlert fetch lat lon polys = ([], none) := by
  intro fetch lat lon polys h
  unfold printAlert
  induction polys with
  | nil => rfl
  | cons pr rest ih =>
    obtain ⟨poly, rec⟩ := pr
    rw [runLoop_cons_nomatch (h (poly, rec) (List.mem_cons_self _ _))]
    exact ih (fun q hq => h q (List.mem_cons_of_mem _ hq))

theorem c8_no_output_witness :
    printAlert fetchOk 9 9 [(sq, recGood)] = ([], none) :=
  c8_no_output fetchOk 9 9 [(sq, recGood)] (by decide)

/-- Claim C9: the containment filter is deterministic — any two
computations of the match set from the same decoded polygon sequence
and the same query coordinate agree, so the match set is a function of
the polygon data and the coordinate alone (the embedded filter is
pure, which makes this definitional). -/
theorem c9_deterministic :
    ∀ (polys : List (MultiPolygon × DbaseRecord)) (lat lon : ℤ)
      (r1 r2 : List (MultiPolygon × DbaseRecord)),
      r1 = matchedPairs polys lat lon →
      r2 = matchedPairs polys lat lon → r1 = r2 := by
  intro polys lat lon r1 r2 h1 h2
  rw [h1, h2]

theorem c9_deterministic_witness :
    matchedPairs [(sq, recGood)] 1 1 = matchedPairs [(sq, recGood)] 1 1 :=
  c9_deterministic [(sq, recGood)] 1 1 _ _ rfl rfl

/-- Claim C10: for a matched record the run also aborts fatally when
the PROD_TYPE field, or the ISSUANCE field, is missing or not of
character type — even though neither value appears in any output.
The conclusion holds for every fetch oracle and prints nothing, so the
abort takes effect before the alert request has any observable
outcome. -/
theorem c10_unused_fields_fatal :
    (∀ (fetch : String → FetchResult) (lat lon : ℤ) (poly : MultiPolygon)
        (rec : DbaseRecord) (rest : List (MultiPolygon × DbaseRecord))
        (t : ℕ) (c : String) (e : AbortReason),
        mpContains poly (lon, lat) = true →
        extractCharField rec "CAP_ID" = Except.ok c →
        extractCharField rec "PROD_TYPE" = Except.error e →
        runLoop fetch lat lon ((poly, rec) :: rest) t = ([], some e)) ∧
      (∀ (fetch : String → FetchResult) (lat lon : ℤ) (poly : MultiPolygon)
        (rec : DbaseRecord) (rest : List (MultiPolygon × DbaseRecord))
        (t : ℕ) (c pv : String) (e : AbortReason),
        mpContains poly (lon, lat) = true →
        extractCharField rec "CAP_ID" = Except.ok c →
        extractCharField rec "PROD_TYPE" = Except.ok pv →
        extractCharField rec "ISSUANCE" = Except.error e →
        runLoop fetch lat lon ((poly, rec) :: rest) t = ([], some e)) := by
  constructor
  · intro fetch lat lon poly rec rest t c e h hc hp
    exact runLoop_cons_prodFail h hc hp
  · intro fetch lat lon poly rec rest t c pv e h hc hp hi
    exact runLoop_cons_issFail h hc hp hi

theorem c10_unused_fields_fatal_witness :
    runLoop fetchOk 1 1 [(sq, recBadProd)] 0 =
        ([], some (AbortReason.expectedCharacter "PROD_TYPE")) ∧
      runLoop fetchOk 1 1 [(sq, recNoIss)] 0 =
        ([], some (AbortReason.fieldMissing "ISSUANCE")) :=
  ⟨c10_unused_fields_fatal.1 fetchOk 1 1 sq recBadProd [] 0 "K1"
      (AbortReason.expectedCharacter "PROD_TYPE") (by decide) rfl rfl,
    c10_unused_fields_fatal.2 fetchOk 1 1 sq recNoIss [] 0 "K1" "TOW"
      (AbortReason.fieldMissing "ISSUANCE") (by decide) rfl rfl rfl⟩

end Wxwarn
